import Mathlib

/-!
Verification of the didit-verification backend (KYC proxy).

The development shallowly embeds the controllers of
src/backend/controllers/verificationController.js and the legacy
controllers/diditAuthController.js: a small JSON model (the express.json
body parser and the JSON.stringify calls of the source), the user row,
the provider-error mapping, session creation, the webhook receiver with
its HMAC signature check, and the status projection.  HMAC-SHA256 itself
is treated as an abstract keyed function passed as a parameter; the
theorems that need a concrete instance use an injective stand-in.
-/

namespace Didit

/-! ## JSON model

JavaScript values as seen by the controllers.  Object fields keep their
document order, as JavaScript objects do.  String escape sequences and
fractional numbers are not modelled; every literal used below stays
inside this fragment. -/

inductive Json where
  | null
  | bool (b : Bool)
  | num (n : Int)
  | str (s : String)
  | arr (xs : List Json)
  | obj (fields : List (String × Json))

/-- JavaScript truthiness of a value. -/
def jsTruthy : Json → Bool
  | .null => false
  | .bool b => b
  | .num n => n != 0
  | .str s => s != ""
  | .arr _ => true
  | .obj _ => true

/-- Truthiness of a possibly-undefined value (undefined is falsy). -/
def jsTruthyO : Option Json → Bool
  | none => false
  | some j => jsTruthy j

def lookupField : List (String × Json) → String → Option Json
  | [], _ => none
  | (k1, v) :: rest, k => if k1 = k then some v else lookupField rest k

/-- Property access obj.k; undefined (none) on a non-object or a missing key. -/
def getField : Json → String → Option Json
  | .obj fs, k => lookupField fs k
  | _, _ => none

/-- Property access that is used where the source expects a string value. -/
def getStr (j : Json) (k : String) : Option String :=
  match getField j k with
  | some (.str s) => some s
  | _ => none

/-! ### JSON.stringify

Fuel-indexed so that the recursion is structural and kernel-reducible;
the wrapper supplies enough fuel for any value.  Output is compact (no
whitespace), with fields in object order, exactly as JSON.stringify. -/

def stringifyGo : Nat → Json → String
  | 0, _ => ""
  | fuel + 1, j =>
    match j with
    | .null => "null"
    | .bool true => "true"
    | .bool false => "false"
    | .num n => toString n
    | .str s => "\"" ++ s ++ "\""
    | .arr [] => "[]"
    | .arr [x] => "[" ++ stringifyGo fuel x ++ "]"
    | .arr (x :: y :: xs) =>
        "[" ++ stringifyGo fuel x ++ "," ++ (stringifyGo fuel (.arr (y :: xs))).drop 1
    | .obj [] => "\x7b\x7d"
    | .obj [(k, v)] => "\x7b\"" ++ k ++ "\":" ++ stringifyGo fuel v ++ "\x7d"
    | .obj ((k, v) :: f2 :: fs) =>
        "\x7b\"" ++ k ++ "\":" ++ stringifyGo fuel v ++ ","
          ++ (stringifyGo fuel (.obj (f2 :: fs))).drop 1

/-- JSON.stringify.  The fuel bounds nesting depth; V8 itself overflows its
call stack and throws far below this bound, so the cutoff is unreachable for
any value the body parser can produce. -/
def jsonStringify (j : Json) : String := stringifyGo 100000 j

/-! ### express.json parsing

A fuel-indexed parser for the JSON fragment above, modelling the body
parser that runs before every handler.  Whitespace between tokens is
accepted and discarded, which is what makes parse-then-restringify lose
the original bytes. -/

def skipWs : List Char → List Char
  | [] => []
  | c :: cs => if c = ' ' ∨ c = '\n' ∨ c = '\t' ∨ c = '\r' then skipWs cs else c :: cs

/-- Characters of a string literal after the opening quote (escapes unmodelled). -/
def parseStrChars : List Char → Option (List Char × List Char)
  | [] => none
  | c :: cs =>
    if c = '"' then some ([], cs)
    else if c = '\\' then none
    else
      match parseStrChars cs with
      | some (acc, rest) => some (c :: acc, rest)
      | none => none

def parseDigits : List Char → List Char × List Char
  | [] => ([], [])
  | c :: cs =>
    if c.isDigit then
      let p := parseDigits cs
      (c :: p.1, p.2)
    else ([], c :: cs)

def digitsToNat (ds : List Char) : Nat :=
  ds.foldl (fun acc c => 10 * acc + (c.toNat - 48)) 0

def parseVal : Nat → List Char → Option (Json × List Char)
  | 0, _ => none
  | fuel + 1, input =>
    match skipWs input with
    | 't' :: 'r' :: 'u' :: 'e' :: rest => some (.bool true, rest)
    | 'f' :: 'a' :: 'l' :: 's' :: 'e' :: rest => some (.bool false, rest)
    | 'n' :: 'u' :: 'l' :: 'l' :: rest => some (.null, rest)
    | '"' :: rest =>
      match parseStrChars rest with
      | some (cs, rest2) => some (.str (String.mk cs), rest2)
      | none => none
    | '\x7b' :: rest =>
      match skipWs rest with
      | '\x7d' :: rest2 => some (.obj [], rest2)
      | '"' :: rest2 =>
        match parseStrChars rest2 with
        | some (kcs, rest3) =>
          match skipWs rest3 with
          | ':' :: rest4 =>
            match parseVal fuel rest4 with
            | some (v, rest5) =>
              match skipWs rest5 with
              | '\x7d' :: rest6 => some (.obj [(String.mk kcs, v)], rest6)
              | ',' :: rest6 =>
                match parseVal fuel ('\x7b' :: rest6) with
                | some (.obj fs, rest7) => some (.obj ((String.mk kcs, v) :: fs), rest7)
                | _ => none
              | _ => none
            | none => none
          | _ => none
        | none => none
      | _ => none
    | '[' :: rest =>
      match skipWs rest with
      | ']' :: rest2 => some (.arr [], rest2)
      | _ =>
        match parseVal fuel rest with
        | some (v, rest5) =>
          match skipWs rest5 with
          | ']' :: rest6 => some (.arr [v], rest6)
          | ',' :: rest6 =>
            match parseVal fuel ('[' :: rest6) with
            | some (.arr vs, rest7) => some (.arr (v :: vs), rest7)
            | _ => none
          | _ => none
        | none => none
    | c :: rest =>
      if c = '-' then
        match parseDigits rest with
        | ([], _) => none
        | (ds, rest2) => some (.num (-(Int.ofNat (digitsToNat ds))), rest2)
      else if c.isDigit then
        let p := parseDigits (c :: rest)
        some (.num (Int.ofNat (digitsToNat p.1)), p.2)
      else none
    | [] => none

/-- The express.json body parser: the whole body must parse, else the
middleware rejects the request before the handler runs. -/
def jsonParse (s : String) : Option Json :=
  match parseVal (s.length + 1) s.toList with
  | some (j, rest) => if (skipWs rest).isEmpty then some j else none
  | none => none

/-! ## Data model

The user row of prisma/schema (fields the controllers touch).  The row
addressed by a request or by the vendor_data key of a webhook; fields
irrelevant to every claim (id, email, createdAt, updatedAt) are omitted. -/

inductive KycStatus where
  | pending
  | verified
  | failed
deriving DecidableEq, Repr

structure User where
  kycStatus : KycStatus := .pending
  kycProvider : Option String := none
  kycCompletedAt : Option Nat := none
  kycDetails : Option String := none
  tradingEnabled : Bool := false
  verificationRetries : Nat := 0
  lastVerificationAttempt : Option Nat := none
  idVerified : Bool := false
  phoneVerified : Bool := false
  phoneNumber : Option String := none
deriving DecidableEq, Repr

/-- MAX_VERIFICATION_RETRIES in verificationController.js (MAX_RETRIES in the
legacy controller). -/
def MAX_VERIFICATION_RETRIES : Nat := 2

/-! ## Provider client outcomes and error mapping -/

/-- A failed axios call: either a non-2xx HTTP response (with the value of its
retry-after header) or a network-level failure with no response object. -/
inductive DiditApiError where
  | http (status : Nat) (retryAfter : Option String)
  | network (msg : String)
deriving DecidableEq, Repr

/-- Fields of a successful POST /v2/session/ response that the controller reads. -/
structure DiditSession where
  session_id : String := "sess"
  session_number : Nat := 0
  session_token : String := ""
  url : String := "https://verify.example"
  status : String := "Not Started"
deriving DecidableEq, Repr

/-- The local error response produced by handleDiditApiError: HTTP status,
the error field of the JSON body, and the echoed retry-after hint. -/
structure ErrorResponse where
  status : Nat
  error : String
  retryAfter : Option String := none
deriving DecidableEq, Repr

/-- handleDiditApiError, verificationController.js lines 807-860: an if-chain
on the upstream status; a network error has no response object, so every test
fails and the chain falls through to 502. -/
def handleDiditApiError : DiditApiError → ErrorResponse
  | .http status ra =>
    if status = 401 then { status := 500, error := "Authentication failed" }
    else if status = 403 then { status := 500, error := "Permission denied" }
    else if status = 400 then { status := 400, error := "Invalid request" }
    else if status = 429 then { status := 429, error := "Rate limit exceeded", retryAfter := ra }
    else if status = 404 then { status := 404, error := "Resource not found" }
    else { status := 502, error := "Service unavailable" }
  | .network _ => { status := 502, error := "Service unavailable" }

/-- The legacy inline mapping in initiateDiditVerification (part_001 lines
175-202): 401 and 403 to 500, 400 to 400, everything else to 502. -/
def legacyApiErrorStatus : DiditApiError → Nat
  | .http status _ =>
    if status = 401 then 500
    else if status = 403 then 500
    else if status = 400 then 400
    else 502
  | .network _ => 502

/-! ## Session creation -/

/-- Observable outcome of one createVerificationSession call, after the user
row has been looked up or lazily created: the HTTP status, whether the
provider was called, the resulting user row, whether the Redis entry was
written, and the retriesUsed / error fields of the response body. -/
structure CreateSessionResult where
  status : Nat
  providerCalled : Bool
  user : User
  cacheStored : Bool := false
  retriesUsed : Option Nat := none
  error : Option String := none
deriving DecidableEq, Repr

/-- createVerificationSession, verificationController.js lines 56-202, from
the point where the user row exists.  The provider call is an input (ok or
error); redisSetOk tells whether the Redis SET succeeds — its failure is
caught and logged, never rethrown. -/
def createVerificationSession (user : User) (provider : Except DiditApiError DiditSession)
    (redisSetOk : Bool) (now : Nat) : CreateSessionResult :=
  if user.kycStatus = .verified then
    { status := 200, providerCalled := false, user := user }
  else if MAX_VERIFICATION_RETRIES ≤ user.verificationRetries then
    { status := 429, providerCalled := false, user := user,
      retriesUsed := some user.verificationRetries }
  else
    match provider with
    | .error e =>
      let r := handleDiditApiError e
      { status := r.status, providerCalled := true, user := user, error := some r.error }
    | .ok _ =>
      let user1 : User :=
        { user with
          verificationRetries := user.verificationRetries + 1,
          lastVerificationAttempt := some now }
      { status := 201, providerCalled := true, user := user1,
        cacheStored := redisSetOk,
        retriesUsed := some (user.verificationRetries + 1) }

/-- initiateDiditVerification, part_001 lines 41-204 (legacy endpoint): same
shape, but the retry-bound check runs before the already-verified check, and
the error mapping is the inline legacy one. -/
def initiateDiditVerification (user : User) (provider : Except DiditApiError DiditSession)
    (redisSetOk : Bool) (now : Nat) : CreateSessionResult :=
  if MAX_VERIFICATION_RETRIES ≤ user.verificationRetries then
    { status := 429, providerCalled := false, user := user,
      retriesUsed := some user.verificationRetries }
  else if user.kycStatus = .verified then
    { status := 200, providerCalled := false, user := user }
  else
    match provider with
    | .error e =>
      { status := legacyApiErrorStatus e, providerCalled := true, user := user,
        error := some "upstream" }
    | .ok _ =>
      let user1 : User :=
        { user with
          verificationRetries := user.verificationRetries + 1,
          lastVerificationAttempt := some now }
      { status := 201, providerCalled := true, user := user1,
        cacheStored := redisSetOk,
        retriesUsed := some (user.verificationRetries + 1) }

/-! ## Phone code send -/

/-- Outcome of sendPhoneVerificationCode after validation: the provider
response is passed through verbatim on 200; the Redis SET failure is caught
and logged (lines 320-335). -/
structure PhoneSendResult where
  status : Nat
  providerBody : Option String := none
  cacheStored : Bool := false
  error : Option String := none
deriving DecidableEq, Repr

/-- sendPhoneVerificationCode, verificationController.js lines 277-356, with
the provider response body abstracted to a string. -/
def sendPhoneVerificationCode (provider : Except DiditApiError String)
    (redisSetOk : Bool) : PhoneSendResult :=
  match provider with
  | .error e =>
    let r := handleDiditApiError e
    { status := r.status, error := some r.error }
  | .ok data => { status := 200, providerBody := some data, cacheStored := redisSetOk }

/-! ## Webhook receiver (verificationController.js) -/

/-- verifyWebhookSignature, lines 688-704.  hmac abstracts
crypto.createHmac(sha256, secret).update(rawBody).digest(hex).  A missing or
empty signature or secret is falsy and yields false; timingSafeEqual throws
on buffers of different lengths, the catch turns that into false; otherwise
the comparison is byte equality. -/
def verifyWebhookSignature (hmac : String → String → String)
    (secret : Option String) (rawBody : String) (signature : Option String) : Bool :=
  match signature, secret with
  | some sig, some sec =>
    if sig = "" ∨ sec = "" then false
    else
      let digest := hmac sec rawBody
      if sig.length = digest.length then sig == digest else false
  | _, _ => false

/-- handleStatusUpdate, lines 709-756: builds updateData starting from
kycProvider, maps the provider status onto kycStatus, and — when a truthy
decision is present — sets idVerified / phoneVerified / phoneNumber from its
sub-objects and overwrites kycDetails with JSON.stringify(decision).  The
single prisma update leaves unnamed fields untouched. -/
def handleStatusUpdate (u : User) (status : Option String) (decision : Option Json)
    (now : Nat) : User :=
  let u1 : User := { u with kycProvider := some "DIDIT" }
  let u2 : User :=
    if status = some "Approved" then
      { u1 with kycStatus := .verified, kycCompletedAt := some now }
    else if status = some "Declined" then { u1 with kycStatus := .failed }
    else if status = some "In Review" then { u1 with kycStatus := .pending }
    else u1
  match decision with
  | some d =>
    if jsTruthy d then
      let u3 : User :=
        match getField d "id_verification" with
        | some iv =>
          if jsTruthy iv then { u2 with idVerified := getStr iv "status" == some "Approved" }
          else u2
        | none => u2
      let u4 : User :=
        match getField d "phone_verification" with
        | some pv =>
          if jsTruthy pv then
            let u3a : User := { u3 with phoneVerified := getStr pv "status" == some "Approved" }
            match getStr pv "phone_number" with
            | some p => if p = "" then u3a else { u3a with phoneNumber := some p }
            | none => u3a
          else u3
        | none => u3
      { u4 with kycDetails := some (jsonStringify d) }
    else u2
  | none => u2

/-- handleDataUpdate, lines 761-774: overwrite kycDetails with the decision
when one is (truthily) present; no status transition. -/
def handleDataUpdate (u : User) (decision : Option Json) : User :=
  match decision with
  | some d => if jsTruthy d then { u with kycDetails := some (jsonStringify d) } else u
  | none => u

/-- State the webhook can touch: the user row keyed by vendor_data (none when
no such row exists — prisma.update then throws) and whether the Redis
correlation entry for the session still exists. -/
structure WebhookState where
  user : Option User
  cacheEntry : Bool
deriving DecidableEq, Repr

/-- The body of the try block of handleWebhook, lines 569-613, after the
signature has been accepted.  The Redis GET is read-only; a missing user row
makes the prisma update throw, which the outer catch turns into a 200
acknowledgement with every later step skipped; the Redis DEL (delOk input)
failure is caught and ignored; triggerPostVerificationActions sets
tradingEnabled true and swallows its own failures. -/
def processWebhookCore (delOk : Bool) (st : WebhookState) (status webhookType : Option String)
    (decision : Option Json) (now : Nat) : WebhookState :=
  let step : Except String WebhookState :=
    if webhookType = some "status.updated" then
      match st.user with
      | none => .error "Record to update not found"
      | some u => .ok { st with user := some (handleStatusUpdate u status decision now) }
    else if webhookType = some "data.updated" then
      if jsTruthyO decision then
        match st.user with
        | none => .error "Record to update not found"
        | some u => .ok { st with user := some (handleDataUpdate u decision) }
      else .ok st
    else .ok st
  match step with
  | .error _ => st
  | .ok st1 =>
    let st2 : WebhookState :=
      if status = some "Approved" ∨ status = some "Declined" ∨ status = some "Abandoned" then
        if delOk then { st1 with cacheEntry := false } else st1
      else st1
    if status = some "Approved" ∧ jsTruthyO decision = true then
      { st2 with user := st2.user.map fun u => { u with tradingEnabled := true } }
    else st2

/-- The same try-block body, with the three payload reads of lines 556-565
performed up front. -/
def processWebhookBody (delOk : Bool) (st : WebhookState) (body : Json) (now : Nat) :
    WebhookState :=
  processWebhookCore delOk st (getStr body "status") (getStr body "webhook_type")
    (getField body "decision") now

/-- handleWebhook, lines 543-625, on the parsed body: recompute
rawBody := JSON.stringify(req.body), verify the signature, reject with 401
before touching any state, otherwise process and always acknowledge 200. -/
def handleWebhook (hmac : String → String → String) (secret : Option String)
    (signature : Option String) (delOk : Bool) (st : WebhookState) (body : Json)
    (now : Nat) : Nat × WebhookState :=
  let rawBody := jsonStringify body
  if verifyWebhookSignature hmac secret rawBody signature then
    (200, processWebhookBody delOk st body now)
  else (401, st)

/-- The POST /webhook route as seen from the wire: express.json parses the
raw bytes (rejecting the request before the handler when they are not JSON),
then handleWebhook runs on the parsed body only — the original bytes are
gone. -/
def webhookEndpoint (hmac : String → String → String) (secret : Option String)
    (rawWire : String) (signature : Option String) (delOk : Bool) (st : WebhookState)
    (now : Nat) : Nat × WebhookState :=
  match jsonParse rawWire with
  | none => (400, st)
  | some body => handleWebhook hmac secret signature delOk st body now

/-! ## Legacy webhook (part_001, diditAuthController.js) -/

/-- verifyDiditSignature, part_001 lines 278-282.  No guards and no catch:
a missing secret makes createHmac throw, a missing signature makes
Buffer.from throw, and signature and digest buffers of different lengths
make timingSafeEqual throw; only equal lengths reach the boolean result. -/
def verifyDiditSignature (hmac : String → String → String) (secret : Option String)
    (payload : Json) (signature : Option String) : Except String Bool :=
  match secret with
  | none => .error "TypeError: createHmac key undefined"
  | some sec =>
    let digest := hmac sec (jsonStringify payload)
    match signature with
    | none => .error "TypeError: Buffer.from undefined"
    | some sig =>
      if sig.length = digest.length then .ok (sig == digest)
      else .error "RangeError: buffer lengths differ"

/-- updateUserVerificationStatus, part_001 lines 285-319: completed maps to
VERIFIED (anything else to FAILED), kycCompletedAt is set or cleared,
idVerified / phoneVerified come from verification_data sub-objects compared
against the lowercase area word verified, and phoneNumber uses a JS or-else
that turns an empty string into null. -/
def updateUserVerificationStatus (u : User) (status : Option String) (body : Json)
    (now : Nat) : User :=
  let vd := (getField body "verification_data").getD (Json.obj [])
  let idv : Bool :=
    match getField vd "id_verification" with
    | some x => getStr x "status" == some "verified"
    | none => false
  let phv : Bool :=
    match getField vd "phone_verification" with
    | some x => getStr x "status" == some "verified"
    | none => false
  let pn : Option String :=
    match getField vd "phone_verification" with
    | some x =>
      match getStr x "phone_number" with
      | some p => if p = "" then none else some p
      | none => none
    | none => none
  { u with
    kycStatus := if status = some "completed" then .verified else .failed,
    kycProvider := some "DIDIT",
    kycCompletedAt := if status = some "completed" then some now else none,
    kycDetails := some (jsonStringify body),
    idVerified := idv,
    phoneVerified := phv,
    phoneNumber := pn }

/-- diditWebhookHandler, part_001 lines 212-275.  The signature check sits
outside the try block, so when verifyDiditSignature throws, the exception
escapes the handler (Express answers 500), which the Except models; a false
verdict gives the clean 401.  Inside the try block a missing user row makes
the prisma update throw; the catch still acknowledges 200. -/
def diditWebhookHandler (hmac : String → String → String) (secret : Option String)
    (st : WebhookState) (body : Json) (signature : Option String) (now : Nat) :
    Except String (Nat × WebhookState) :=
  match verifyDiditSignature hmac secret body signature with
  | .error e => .error e
  | .ok false => .ok (401, st)
  | .ok true =>
    let status := getStr body "status"
    match st.user with
    | none => .ok (200, st)
    | some u =>
      let u1 := updateUserVerificationStatus u status body now
      let st1 : WebhookState := { user := some u1, cacheEntry := false }
      if status = some "completed" then
        .ok (200, { st1 with user := st1.user.map fun x => { x with tradingEnabled := true } })
      else .ok (200, st1)

/-! ## Status projection -/

/-- maskPhoneNumber, lines 865-870: a falsy argument (undefined, null or the
empty string) gives null, a short number passes through, a longer one keeps
only its last four characters behind three asterisks. -/
def maskPhoneNumber : Option String → Option String
  | none => none
  | some p =>
    if p = "" then none
    else if p.length ≤ 4 then some p
    else some ("***" ++ p.drop (p.length - 4))

/-- The data object of GET /status/:userId, lines 650-666 (fields the claims
mention).  The phone number is echoed only through the mask, behind a JS
truthiness guard. -/
structure StatusResponse where
  kycStatus : KycStatus
  idVerified : Bool
  phoneVerified : Bool
  phoneNumber : Option String
  verificationRetries : Nat
  retriesRemaining : Nat
  tradingEnabled : Bool
  completedAt : Option Nat
deriving DecidableEq, Repr

/-- getUserVerificationStatus, lines 637-677: 404 when the row is missing,
otherwise a read-only projection of the row. -/
def getUserVerificationStatus (user : Option User) : Nat × Option StatusResponse :=
  match user with
  | none => (404, none)
  | some u =>
    (200, some {
      kycStatus := u.kycStatus,
      idVerified := u.idVerified,
      phoneVerified := u.phoneVerified,
      phoneNumber :=
        match u.phoneNumber with
        | some p => if p = "" then none else maskPhoneNumber (some p)
        | none => none,
      verificationRetries := u.verificationRetries,
      retriesRemaining := MAX_VERIFICATION_RETRIES - u.verificationRetries,
      tradingEnabled := u.tradingEnabled,
      completedAt := u.kycCompletedAt })

/-- An injective concrete instance standing in for HMAC-SHA256 in closed
witnesses: distinct messages under the same key give distinct tags. -/
def toyHmac (secret msg : String) : String := secret ++ "/" ++ msg

/-! ## Field characterizations of handleStatusUpdate

The written-if-any value of each decision-driven field, and one lemma per
user-row field.  These decompose the intertwined record updates of the
source into independent per-field facts. -/

/-- The idVerified value a truthy decision writes, if any. -/
def decisionIdVerified : Option Json → Option Bool
  | some d =>
    if jsTruthy d then
      match getField d "id_verification" with
      | some iv => if jsTruthy iv then some (getStr iv "status" == some "Approved") else none
      | none => none
    else none
  | none => none

/-- The phoneVerified value a truthy decision writes, if any. -/
def decisionPhoneVerified : Option Json → Option Bool
  | some d =>
    if jsTruthy d then
      match getField d "phone_verification" with
      | some pv => if jsTruthy pv then some (getStr pv "status" == some "Approved") else none
      | none => none
    else none
  | none => none

/-- The phoneNumber value a truthy decision writes, if any. -/
def decisionPhoneNumber : Option Json → Option String
  | some d =>
    if jsTruthy d then
      match getField d "phone_verification" with
      | some pv =>
        if jsTruthy pv then
          match getStr pv "phone_number" with
          | some p => if p = "" then none else some p
          | none => none
        else none
      | none => none
    else none
  | none => none

/-- The kycDetails value a truthy decision writes, if any. -/
def decisionDetails : Option Json → Option String
  | some d => if jsTruthy d then some (jsonStringify d) else none
  | none => none

theorem handleStatusUpdate_kycProvider (u : User) (s : Option String) (d : Option Json)
    (n : Nat) : (handleStatusUpdate u s d n).kycProvider = some "DIDIT" := by
  unfold handleStatusUpdate
  repeat' first | rfl | split

theorem handleStatusUpdate_tradingEnabled (u : User) (s : Option String) (d : Option Json)
    (n : Nat) : (handleStatusUpdate u s d n).tradingEnabled = u.tradingEnabled := by
  unfold handleStatusUpdate
  repeat' first | rfl | split

theorem handleStatusUpdate_verificationRetries (u : User) (s : Option String)
    (d : Option Json) (n : Nat) :
    (handleStatusUpdate u s d n).verificationRetries = u.verificationRetries := by
  unfold handleStatusUpdate
  repeat' first | rfl | split

theorem handleStatusUpdate_lastVerificationAttempt (u : User) (s : Option String)
    (d : Option Json) (n : Nat) :
    (handleStatusUpdate u s d n).lastVerificationAttempt = u.lastVerificationAttempt := by
  unfold handleStatusUpdate
  repeat' first | rfl | split

theorem handleStatusUpdate_kycStatus (u : User) (s : Option String) (d : Option Json)
    (n : Nat) :
    (handleStatusUpdate u s d n).kycStatus =
      (if s = some "Approved" then .verified
       else if s = some "Declined" then .failed
       else if s = some "In Review" then .pending
       else u.kycStatus) := by
  unfold handleStatusUpdate
  repeat' first | rfl | split

theorem handleStatusUpdate_kycCompletedAt (u : User) (s : Option String) (d : Option Json)
    (n : Nat) :
    (handleStatusUpdate u s d n).kycCompletedAt =
      (if s = some "Approved" then some n else u.kycCompletedAt) := by
  unfold handleStatusUpdate
  repeat' first | rfl | split

theorem handleStatusUpdate_idVerified (u : User) (s : Option String) (d : Option Json)
    (n : Nat) :
    (handleStatusUpdate u s d n).idVerified = (decisionIdVerified d).getD u.idVerified := by
  unfold handleStatusUpdate decisionIdVerified
  repeat' first | rfl | split

theorem handleStatusUpdate_phoneVerified (u : User) (s : Option String) (d : Option Json)
    (n : Nat) :
    (handleStatusUpdate u s d n).phoneVerified
      = (decisionPhoneVerified d).getD u.phoneVerified := by
  unfold handleStatusUpdate decisionPhoneVerified
  repeat' first | rfl | split

theorem handleStatusUpdate_phoneNumber (u : User) (s : Option String) (d : Option Json)
    (n : Nat) :
    (handleStatusUpdate u s d n).phoneNumber
      = ((decisionPhoneNumber d).map some).getD u.phoneNumber := by
  unfold handleStatusUpdate decisionPhoneNumber
  repeat' first | rfl | split

theorem handleStatusUpdate_kycDetails (u : User) (s : Option String) (d : Option Json)
    (n : Nat) :
    (handleStatusUpdate u s d n).kycDetails
      = ((decisionDetails d).map some).getD u.kycDetails := by
  unfold handleStatusUpdate decisionDetails
  repeat' first | rfl | split

/-- Two user rows with equal fields are equal. -/
theorem User.extEq (a c : User)
    (h1 : a.kycStatus = c.kycStatus) (h2 : a.kycProvider = c.kycProvider)
    (h3 : a.kycCompletedAt = c.kycCompletedAt) (h4 : a.kycDetails = c.kycDetails)
    (h5 : a.tradingEnabled = c.tradingEnabled)
    (h6 : a.verificationRetries = c.verificationRetries)
    (h7 : a.lastVerificationAttempt = c.lastVerificationAttempt)
    (h8 : a.idVerified = c.idVerified) (h9 : a.phoneVerified = c.phoneVerified)
    (h10 : a.phoneNumber = c.phoneNumber) : a = c := by
  cases a
  cases c
  simp_all

/-- A written-or-passed-through field absorbs a second identical write. -/
theorem optionGetD_absorb {α : Type} (o : Option α) (x : α) :
    o.getD (o.getD x) = o.getD x := by
  cases o <;> rfl

/-- Re-applying the same status update (with the trading flag possibly set in
between) changes nothing: every written field depends only on the payload,
every other field passes through. -/
theorem handleStatusUpdate_overwrite (u : User) (b : Bool) (s : Option String)
    (d : Option Json) (n : Nat) :
    handleStatusUpdate { handleStatusUpdate u s d n with tradingEnabled := b } s d n
      = { handleStatusUpdate u s d n with tradingEnabled := b } := by
  apply User.extEq <;>
    simp only [handleStatusUpdate_kycStatus, handleStatusUpdate_kycProvider,
      handleStatusUpdate_kycCompletedAt, handleStatusUpdate_kycDetails,
      handleStatusUpdate_tradingEnabled, handleStatusUpdate_verificationRetries,
      handleStatusUpdate_lastVerificationAttempt, handleStatusUpdate_idVerified,
      handleStatusUpdate_phoneVerified, handleStatusUpdate_phoneNumber]
  all_goals first
    | rfl
    | (split_ifs <;> rfl)
    | exact optionGetD_absorb _ _

theorem handleStatusUpdate_idem (u : User) (s : Option String) (d : Option Json) (n : Nat) :
    handleStatusUpdate (handleStatusUpdate u s d n) s d n = handleStatusUpdate u s d n :=
  handleStatusUpdate_overwrite u (handleStatusUpdate u s d n).tradingEnabled s d n

theorem handleDataUpdate_overwrite (u : User) (b : Bool) (d : Option Json) :
    handleDataUpdate { handleDataUpdate u d with tradingEnabled := b } d
      = { handleDataUpdate u d with tradingEnabled := b } := by
  unfold handleDataUpdate
  repeat' first | rfl | split
  all_goals simp_all

theorem handleDataUpdate_idem (u : User) (d : Option Json) :
    handleDataUpdate (handleDataUpdate u d) d = handleDataUpdate u d :=
  handleDataUpdate_overwrite u (handleDataUpdate u d).tradingEnabled d

theorem user_trading_absorb (x : User) :
    ({ { x with tradingEnabled := true } with tradingEnabled := true } : User)
      = { x with tradingEnabled := true } := rfl

set_option maxHeartbeats 1000000 in
/-- One webhook-processing pass absorbs an identical second pass: the status
and data updates are full overwrites, the cache delete and the trading
enable are idempotent. -/
theorem processWebhookCore_idempotent (delOk : Bool) (st : WebhookState)
    (s w : Option String) (d : Option Json) (now : Nat) :
    processWebhookCore delOk (processWebhookCore delOk st s w d now) s w d now
      = processWebhookCore delOk st s w d now := by
  unfold processWebhookCore
  by_cases hw1 : w = some "status.updated" <;>
    by_cases hw2 : w = some "data.updated" <;>
    rcases hu : st.user with _ | u <;>
    by_cases hA : s = some "Approved" <;>
    by_cases ht : jsTruthyO d = true <;>
    by_cases hT : (s = some "Approved" ∨ s = some "Declined" ∨ s = some "Abandoned") <;>
    by_cases hdel : delOk <;>
    simp_all [handleStatusUpdate_overwrite, handleStatusUpdate_idem,
      handleDataUpdate_overwrite, handleDataUpdate_idem, user_trading_absorb]

/-! ## Claims -/

/-- C1: the webhook handler does not authenticate the exact raw request body
bytes.  It recomputes rawBody as JSON.stringify(req.body) after express.json
has already parsed the wire bytes, so a request whose body was signed over
its exact wire bytes — here a body that only differs from its
re-serialization by one space — is rejected with 401 (state untouched),
while the signature over the re-serialized body is the one accepted. -/
theorem handleWebhook_hmacs_reserialized_body_not_raw_bytes :
    jsonParse "\x7b\"status\": \"Approved\"\x7d"
      = some (Json.obj [("status", Json.str "Approved")]) ∧
    jsonStringify (Json.obj [("status", Json.str "Approved")])
      ≠ "\x7b\"status\": \"Approved\"\x7d" ∧
    webhookEndpoint toyHmac (some "whsec") "\x7b\"status\": \"Approved\"\x7d"
        (some (toyHmac "whsec" "\x7b\"status\": \"Approved\"\x7d")) true
        ⟨some {}, true⟩ 5
      = (401, ⟨some {}, true⟩) ∧
    (webhookEndpoint toyHmac (some "whsec") "\x7b\"status\": \"Approved\"\x7d"
        (some (toyHmac "whsec" "\x7b\"status\":\"Approved\"\x7d")) true
        ⟨some {}, true⟩ 5).1 = 200 := by
  exact ⟨rfl, by decide, by decide, by decide⟩

/-- C2: only two session-creation attempts are ever accepted, not three.
The counter is incremented on the first attempt as well, so a PENDING user
whose second attempt brought verificationRetries to 2 has their third
attempt answered 429 with no provider call and no row change, although the
configured bound was documented as two retries beyond the first (three
attempts in total). -/
theorem createVerificationSession_third_attempt_rejected :
    createVerificationSession { verificationRetries := 2 } (.ok {}) true 0 =
      { status := 429, providerCalled := false, user := { verificationRetries := 2 },
        retriesUsed := some 2 } ∧
    (createVerificationSession { verificationRetries := 1 } (.ok {}) true 0).status = 201 ∧
    (createVerificationSession { verificationRetries := 1 } (.ok {}) true 0).user.verificationRetries
      = 2 := by
  decide

/-- C3 (counterexample): in the legacy initiateDiditVerification the
retry-bound check runs before the already-verified check, so an already
VERIFIED user with verificationRetries = 2 is answered 429, not the
already-verified 200 — the claim fails for that cited handler. -/
theorem initiateDiditVerification_verified_user_gets_429 :
    (initiateDiditVerification { kycStatus := .verified, verificationRetries := 2 }
        (.ok {}) true 0).status = 429 ∧
    (initiateDiditVerification { kycStatus := .verified, verificationRetries := 2 }
        (.ok {}) true 0).status ≠ 200 := by
  decide

/-- C3 (amended): in createVerificationSession the already-verified check
comes first, so a VERIFIED user always receives the 200 already-verified
response with no provider call and no counter change, whatever the current
verificationRetries value and whatever the provider would have answered. -/
theorem createVerificationSession_already_verified (u : User)
    (provider : Except DiditApiError DiditSession) (redisSetOk : Bool) (now : Nat)
    (h : u.kycStatus = .verified) :
    createVerificationSession u provider redisSetOk now =
      { status := 200, providerCalled := false, user := u } := by
  simp [createVerificationSession, h]

/-- C3 witness: a VERIFIED user at the retry bound still gets the 200. -/
theorem createVerificationSession_already_verified_witness :
    createVerificationSession { kycStatus := .verified, verificationRetries := 5 }
        (.error (.network "down")) false 3 =
      { status := 200, providerCalled := false,
        user := { kycStatus := .verified, verificationRetries := 5 } } :=
  createVerificationSession_already_verified _ _ _ _ rfl

/-- A status.updated webhook payload carrying the provider status Approved,
as the legacy endpoint would receive it. -/
def legacyApprovedBody : Json :=
  Json.obj [("session_id", Json.str "s1"), ("status", Json.str "Approved"),
            ("vendor_data", Json.str "u1"), ("webhook_type", Json.str "status.updated")]

/-- C4 (counterexample): the claimed mapping fails on the cited legacy
updateUserVerificationStatus — the handler behind the /api/v1/didit/webhook
route that CALLBACK_URL names.  It maps only the status completed to
VERIFIED and everything else to FAILED: an accepted (correctly signed)
status.updated webhook with status Approved leaves kycStatus FAILED, not
VERIFIED; In Review gives FAILED, not PENDING; an unknown status overwrites
to FAILED instead of leaving the status unchanged; and kycCompletedAt is
cleared rather than stamped. -/
theorem updateUserVerificationStatus_approved_not_verified :
    diditWebhookHandler toyHmac (some "whsec") ⟨some {}, true⟩ legacyApprovedBody
        (some (toyHmac "whsec" (jsonStringify legacyApprovedBody))) 9
      = .ok (200, ⟨some (updateUserVerificationStatus {} (some "Approved")
          legacyApprovedBody 9), false⟩) ∧
    (updateUserVerificationStatus {} (some "Approved") legacyApprovedBody 9).kycStatus
      = .failed ∧
    (updateUserVerificationStatus {} (some "Approved") legacyApprovedBody 9).kycStatus
      ≠ .verified ∧
    (updateUserVerificationStatus {} (some "In Review") legacyApprovedBody 9).kycStatus
      = .failed ∧
    (updateUserVerificationStatus { kycStatus := .verified } (some "Unknown Status")
        legacyApprovedBody 9).kycStatus = .failed ∧
    (updateUserVerificationStatus { kycCompletedAt := some 3 } (some "Approved")
        legacyApprovedBody 9).kycCompletedAt = none := by
  exact ⟨rfl, rfl, by decide, rfl, rfl, rfl⟩

/-- C4 (amended): the claimed status.updated mapping holds for the current
controller's handleStatusUpdate (the legacy updateUserVerificationStatus
instead sends every status except completed to FAILED).  Approved sets
kycStatus VERIFIED and stamps kycCompletedAt; Declined sets FAILED; In
Review sets PENDING; any other provider status leaves kycStatus unchanged.
When the decision carries an id_verification sub-object, idVerified becomes
(its status == Approved); when it carries a phone_verification sub-object,
phoneVerified becomes the analogous test and phoneNumber is overwritten
whenever a (truthy) number is provided.  Presence is JavaScript truthiness,
as in the source conditions. -/
theorem handleStatusUpdate_maps_provider_status (u : User) (status : Option String)
    (decision : Option Json) (now : Nat) :
    (status = some "Approved" →
       (handleStatusUpdate u status decision now).kycStatus = .verified ∧
       (handleStatusUpdate u status decision now).kycCompletedAt = some now) ∧
    (status = some "Declined" →
       (handleStatusUpdate u status decision now).kycStatus = .failed) ∧
    (status = some "In Review" →
       (handleStatusUpdate u status decision now).kycStatus = .pending) ∧
    (status ≠ some "Approved" → status ≠ some "Declined" → status ≠ some "In Review" →
       (handleStatusUpdate u status decision now).kycStatus = u.kycStatus) ∧
    (∀ d iv, decision = some d → jsTruthy d = true →
       getField d "id_verification" = some iv → jsTruthy iv = true →
       (handleStatusUpdate u status decision now).idVerified
         = (getStr iv "status" == some "Approved")) ∧
    (∀ d pv, decision = some d → jsTruthy d = true →
       getField d "phone_verification" = some pv → jsTruthy pv = true →
       (handleStatusUpdate u status decision now).phoneVerified
         = (getStr pv "status" == some "Approved") ∧
       (∀ p, getStr pv "phone_number" = some p → p ≠ "" →
          (handleStatusUpdate u status decision now).phoneNumber = some p)) := by
  refine ⟨?_, ?_, ?_, ?_, ?_, ?_⟩
  · intro h
    rw [handleStatusUpdate_kycStatus, handleStatusUpdate_kycCompletedAt]
    simp [h]
  · intro h
    rw [handleStatusUpdate_kycStatus]
    simp [h]
  · intro h
    rw [handleStatusUpdate_kycStatus]
    simp [h]
  · intro h1 h2 h3
    rw [handleStatusUpdate_kycStatus]
    simp [h1, h2, h3]
  · intro d iv hd hdt hiv hivt
    rw [handleStatusUpdate_idVerified]
    simp [decisionIdVerified, hd, hdt, hiv, hivt]
  · intro d pv hd hdt hpv hpvt
    constructor
    · rw [handleStatusUpdate_phoneVerified]
      simp [decisionPhoneVerified, hd, hdt, hpv, hpvt]
    · intro p hp hpne
      rw [handleStatusUpdate_phoneNumber]
      simp [decisionPhoneNumber, hd, hdt, hpv, hpvt, hp, hpne]

/-- The decision object of the approval scenario of the spec. -/
def scenarioDecision : Json :=
  Json.obj [("id_verification", Json.obj [("status", Json.str "Approved")]),
            ("phone_verification", Json.obj [("status", Json.str "Approved"),
                                             ("phone_number", Json.str "+15551234567")])]

/-- C4 witness: the approval scenario payload verifies the user, sets both
flags and stores the phone number. -/
theorem handleStatusUpdate_maps_provider_status_witness :
    (handleStatusUpdate {} (some "Approved") (some scenarioDecision) 7).kycStatus
      = .verified ∧
    (handleStatusUpdate {} (some "Approved") (some scenarioDecision) 7).kycCompletedAt
      = some 7 ∧
    (handleStatusUpdate {} (some "Approved") (some scenarioDecision) 7).idVerified = true ∧
    (handleStatusUpdate {} (some "Approved") (some scenarioDecision) 7).phoneVerified = true ∧
    (handleStatusUpdate {} (some "Approved") (some scenarioDecision) 7).phoneNumber
      = some "+15551234567" := by
  have h := handleStatusUpdate_maps_provider_status {} (some "Approved")
    (some scenarioDecision) 7
  refine ⟨(h.1 rfl).1, (h.1 rfl).2, ?_, ?_, ?_⟩
  · rw [h.2.2.2.2.1 scenarioDecision (Json.obj [("status", Json.str "Approved")])
      rfl rfl rfl rfl]
    decide
  · rw [(h.2.2.2.2.2 scenarioDecision
      (Json.obj [("status", Json.str "Approved"), ("phone_number", Json.str "+15551234567")])
      rfl rfl rfl rfl).1]
    decide
  · exact (h.2.2.2.2.2 scenarioDecision
      (Json.obj [("status", Json.str "Approved"), ("phone_number", Json.str "+15551234567")])
      rfl rfl rfl rfl).2 "+15551234567" rfl (by decide)

/-- C5: delivering the identical status.updated webhook payload twice (at
the same clock reading) yields the same response and the same final user-row
and cache state as delivering it once: every field written is a full
overwrite determined by the payload, the cache delete only removes the
entry, and the trading side effect only sets a boolean to true.  The
statement covers every payload and so in particular every status.updated
one. -/
theorem handleWebhook_idempotent (hmac : String → String → String)
    (secret signature : Option String) (delOk : Bool) (st : WebhookState) (body : Json)
    (now : Nat) :
    handleWebhook hmac secret signature delOk
        (handleWebhook hmac secret signature delOk st body now).2 body now
      = handleWebhook hmac secret signature delOk st body now := by
  unfold handleWebhook
  cases hv : verifyWebhookSignature hmac secret (jsonStringify body) signature <;>
    simp only [hv, Bool.false_eq_true, if_false, if_true]
  exact congrArg _ (processWebhookCore_idempotent delOk st (getStr body "status")
    (getStr body "webhook_type") (getField body "decision") now)

/-- C6: once the signature over the re-serialized body is accepted, the
webhook answers 200 whatever the processing does — including the realizable
internal throw, a missing user row (st.user = none), which the outer catch
turns into the same 200 — and the only non-200 answer of the handler is the
401 for a failed signature check. -/
theorem handleWebhook_acks_200_unless_bad_signature
    (hmac : String → String → String) (secret signature : Option String)
    (delOk : Bool) (st : WebhookState) (body : Json) (now : Nat) :
    ((handleWebhook hmac secret signature delOk st body now).1 = 200 ↔
      verifyWebhookSignature hmac secret (jsonStringify body) signature = true) ∧
    ((handleWebhook hmac secret signature delOk st body now).1 = 401 ↔
      verifyWebhookSignature hmac secret (jsonStringify body) signature = false) := by
  unfold handleWebhook
  cases hv : verifyWebhookSignature hmac secret (jsonStringify body) signature <;> simp [hv]

/-- The user row a webhook pass leaves behind does not depend on whether the
Redis delete succeeded. -/
theorem processWebhookCore_user_independent_of_del (st : WebhookState)
    (s w : Option String) (d : Option Json) (now : Nat) (a b : Bool) :
    (processWebhookCore a st s w d now).user = (processWebhookCore b st s w d now).user := by
  unfold processWebhookCore
  repeat' first | rfl | split

/-- C7: a correlation-cache store failure is swallowed in every flow — the
session-creation response, its user row, the phone-send response and the
webhook response and row are identical whether or not the Redis write or
delete succeeded — while a provider-call failure aborts the flow: the
handler returns exactly the mapped error, calls nothing else, and leaves the
user row unchanged (no retry increment). -/
theorem cacheStoreFailureIgnored_providerFailureAborts
    (u : User) (sess : DiditSession) (e : DiditApiError) (pbody : String) (now : Nat)
    (hmac : String → String → String) (secret signature : Option String)
    (st : WebhookState) (body : Json) (r : Bool) :
    ((createVerificationSession u (.ok sess) false now).status
        = (createVerificationSession u (.ok sess) true now).status ∧
     (createVerificationSession u (.ok sess) false now).user
        = (createVerificationSession u (.ok sess) true now).user ∧
     (createVerificationSession u (.ok sess) false now).retriesUsed
        = (createVerificationSession u (.ok sess) true now).retriesUsed ∧
     (createVerificationSession u (.ok sess) false now).error
        = (createVerificationSession u (.ok sess) true now).error) ∧
    ((sendPhoneVerificationCode (.ok pbody) false).status
        = (sendPhoneVerificationCode (.ok pbody) true).status ∧
     (sendPhoneVerificationCode (.ok pbody) false).providerBody
        = (sendPhoneVerificationCode (.ok pbody) true).providerBody ∧
     (sendPhoneVerificationCode (.ok pbody) false).error
        = (sendPhoneVerificationCode (.ok pbody) true).error) ∧
    ((handleWebhook hmac secret signature false st body now).1
        = (handleWebhook hmac secret signature true st body now).1 ∧
     (handleWebhook hmac secret signature false st body now).2.user
        = (handleWebhook hmac secret signature true st body now).2.user) ∧
    ((createVerificationSession u (.error e) r now).providerCalled = true →
       createVerificationSession u (.error e) r now
         = { status := (handleDiditApiError e).status, providerCalled := true, user := u,
             error := some (handleDiditApiError e).error }) ∧
    (sendPhoneVerificationCode (.error e) r
       = { status := (handleDiditApiError e).status,
           error := some (handleDiditApiError e).error }) := by
  refine ⟨⟨?_, ?_, ?_, ?_⟩, ⟨rfl, rfl, rfl⟩, ⟨?_, ?_⟩, ?_, rfl⟩
  · unfold createVerificationSession
    split_ifs <;> rfl
  · unfold createVerificationSession
    split_ifs <;> rfl
  · unfold createVerificationSession
    split_ifs <;> rfl
  · unfold createVerificationSession
    split_ifs <;> rfl
  · unfold handleWebhook
    cases hv : verifyWebhookSignature hmac secret (jsonStringify body) signature <;>
      simp [hv]
  · unfold handleWebhook
    cases hv : verifyWebhookSignature hmac secret (jsonStringify body) signature <;>
      simp [hv]
    exact processWebhookCore_user_independent_of_del st (getStr body "status")
      (getStr body "webhook_type") (getField body "decision") now false true
  · intro h
    unfold createVerificationSession at h ⊢
    split_ifs at h ⊢ <;> simp_all

/-- C7 witness: a network failure of the provider aborts session creation
with the mapped 502 and an unchanged user row. -/
theorem cacheStoreFailureIgnored_providerFailureAborts_witness :
    createVerificationSession {} (.error (.network "ECONNREFUSED")) true 0
      = { status := 502, providerCalled := true, user := {},
          error := some "Service unavailable" } := by
  have h := cacheStoreFailureIgnored_providerFailureAborts {} {}
    (.network "ECONNREFUSED") "body" 0 toyHmac none none ⟨none, false⟩ Json.null true
  exact h.2.2.2.1 (by decide)

/-- C8 (counterexample): an upstream 401 is not surfaced as a local 401
authentication error; handleDiditApiError maps it to a 500. -/
theorem handleDiditApiError_upstream_401_is_local_500 :
    handleDiditApiError (.http 401 none)
      = { status := 500, error := "Authentication failed" } ∧
    (handleDiditApiError (.http 401 none)).status ≠ 401 := by
  decide

/-- C8 (amended): the upstream error mapping, exactly one local response per
class — 400 to 400, 429 to 429 with the retry-after hint echoed, 404 to 404,
403 to a 500 permission error, 401 to a 500 authentication-failure error,
and every other status as well as any network failure to 502. -/
theorem handleDiditApiError_mapping (ra : Option String) (m : String) (s : Nat)
    (h1 : s ≠ 400) (h2 : s ≠ 401) (h3 : s ≠ 403) (h4 : s ≠ 404) (h5 : s ≠ 429) :
    handleDiditApiError (.http 400 ra) = { status := 400, error := "Invalid request" } ∧
    handleDiditApiError (.http 429 ra)
      = { status := 429, error := "Rate limit exceeded", retryAfter := ra } ∧
    handleDiditApiError (.http 404 ra) = { status := 404, error := "Resource not found" } ∧
    handleDiditApiError (.http 403 ra) = { status := 500, error := "Permission denied" } ∧
    handleDiditApiError (.http 401 ra) = { status := 500, error := "Authentication failed" } ∧
    handleDiditApiError (.http s ra) = { status := 502, error := "Service unavailable" } ∧
    handleDiditApiError (.network m) = { status := 502, error := "Service unavailable" } := by
  refine ⟨rfl, rfl, rfl, rfl, rfl, ?_, rfl⟩
  simp [handleDiditApiError, h1, h2, h3, h4, h5]

/-- C8 witness: an unmapped upstream 500 goes to 502. -/
theorem handleDiditApiError_mapping_witness :
    handleDiditApiError (.http 500 (some "7"))
      = { status := 502, error := "Service unavailable" } :=
  (handleDiditApiError_mapping (some "7") "x" 500 (by decide) (by decide) (by decide)
    (by decide) (by decide)).2.2.2.2.2.1

/-- C9: a phone number echoed by GET /status goes through maskPhoneNumber;
a number longer than four characters is echoed as three asterisks followed
by exactly its last four characters, and a nonempty number of at most four
characters passes through unchanged.  (The empty string is falsy in
JavaScript, so it is never echoed at all: the guard returns null.) -/
theorem maskPhoneNumber_masks_all_but_last_four (u : User) (p : String)
    (hp : u.phoneNumber = some p) (hne : p ≠ "") :
    (∃ r, getUserVerificationStatus (some u) = (200, some r) ∧
       r.phoneNumber = maskPhoneNumber (some p)) ∧
    (4 < p.length →
       ∃ pre suf : String, p = pre ++ suf ∧ suf.length = 4 ∧
         maskPhoneNumber (some p) = some ("***" ++ suf)) ∧
    (p.length ≤ 4 → maskPhoneNumber (some p) = some p) := by
  refine ⟨⟨_, rfl, ?_⟩, ?_, ?_⟩
  · simp [getUserVerificationStatus, hp, hne]
  · intro hlong
    refine ⟨p.take (p.length - 4), p.drop (p.length - 4), ?_, ?_, ?_⟩
    · apply String.ext
      simp only [String.data_append, String.data_take, String.data_drop,
        List.take_append_drop]
    · rw [← String.length_data, String.data_drop, List.length_drop, String.length_data]
      omega
    · simp [maskPhoneNumber, hne]
      omega
  · intro hshort
    simp [maskPhoneNumber, hne, hshort]

/-- C9 witness: the scenario number masks to ***4567. -/
theorem maskPhoneNumber_masks_witness :
    maskPhoneNumber (some "+15551234567") = some "***4567" := by
  have h := maskPhoneNumber_masks_all_but_last_four
    { phoneNumber := some "+15551234567" } "+15551234567" rfl (by decide)
  have h2 := h.2.1 (by decide)
  decide

/-- C10 (counterexample): the legacy signature verifier is not total.  With
the signature header missing it throws (Buffer.from of undefined) and the
exception escapes diditWebhookHandler, whose try block starts only after the
check — no clean 401; a present signature whose length differs from the
digest makes timingSafeEqual throw the same way. -/
theorem verifyDiditSignature_throws_on_missing_or_short_signature :
    verifyDiditSignature toyHmac (some "whsec")
        (Json.obj [("status", Json.str "completed")]) none
      = .error "TypeError: Buffer.from undefined" ∧
    diditWebhookHandler toyHmac (some "whsec") ⟨some {}, true⟩
        (Json.obj [("status", Json.str "completed")]) none 0
      = .error "TypeError: Buffer.from undefined" ∧
    verifyDiditSignature toyHmac (some "whsec")
        (Json.obj [("status", Json.str "completed")]) (some "x")
      = .error "RangeError: buffer lengths differ" := by
  exact ⟨rfl, rfl, rfl⟩

/-- C10 (amended): verifyDiditSignature returns a boolean only when the
secret is set, the signature header is present, and its length equals the
digest length; there a mismatch yields false and the handler answers the
clean 401.  A missing secret or header throws instead (an uncaught exception
rather than a 401). -/
theorem verifyDiditSignature_partial_totality (hmac : String → String → String)
    (sec : String) (body : Json) (sig : String)
    (h : sig.length = (hmac sec (jsonStringify body)).length) :
    verifyDiditSignature hmac (some sec) body (some sig)
      = .ok (sig == hmac sec (jsonStringify body)) ∧
    (∀ st : WebhookState, sig ≠ hmac sec (jsonStringify body) →
       diditWebhookHandler hmac (some sec) st body (some sig) 0 = .ok (401, st)) ∧
    (∃ m, verifyDiditSignature hmac (some sec) body none = Except.error m) ∧
    (∃ m, verifyDiditSignature hmac none body (some sig) = Except.error m) := by
  refine ⟨?_, ?_, ⟨_, rfl⟩, ⟨_, rfl⟩⟩
  · simp [verifyDiditSignature, h]
  · intro st hne
    have hb : (sig == hmac sec (jsonStringify body)) = false := beq_eq_false_iff_ne.mpr hne
    simp [diditWebhookHandler, verifyDiditSignature, h, hb]

/-- C10 witness: an equal-length wrong signature is cleanly refused. -/
theorem verifyDiditSignature_partial_totality_witness :
    verifyDiditSignature toyHmac (some "k") (Json.obj []) (some "abcd") = .ok false := by
  rw [(verifyDiditSignature_partial_totality toyHmac "k" (Json.obj []) "abcd" (by decide)).1]
  rfl

end Didit
